import Mathlib

/-!
# fhir-alarm: websocket subscription session and e-mail notifier

A shallow embedding of `fhir/client.go`, `notification/email.go`, `main.go` and the
configuration records of `config/config.go`.

* Calls into other packages (gorilla/websocket, go-mail, encoding/json, chroma, crypto/tls,
  net/url) are not part of the repository.  Pure library functions are taken as the fields of
  a `Lib` record; the results of network operations (dial, read, write, SMTP delivery) are
  supplied by the environment, one `Event` at a time.
* The process is two goroutines: the caller of `ConnectAndBind` and the reader it starts.
  Their interleaving, the arrival of interrupt signals and the choice taken by every `select`
  are the schedule, a list of events.  An event that the current state does not enable
  makes `step` return `none`, so `run` accepts exactly the executions the program can perform.
* Every call the program makes that is visible outside the process is recorded, in order,
  in `State.trace`.  What a library does on its own inside a call (for instance the close
  frame that the default close handler of gorilla/websocket echoes from within
  `ReadMessage` when the peer sends one) is not a call of the program and is not recorded.
-/

namespace FhirAlarm

/-! ## Bytes, errors, library constants -/

/-- A Go `[]byte`; every element stands for one octet. -/
abbrev Bytes := List Nat

/-- A Go `error` value, identified by its text. -/
abbrev Error := String

/-- The conversion `[]byte(s)`: the UTF-8 octets of a string. -/
def stringBytes (s : String) : Bytes :=
  (s.data.flatMap String.utf8EncodeChar).map UInt8.toNat

/-- Constant `websocket.TextMessage`. -/
def TextMessage : Nat := 1

/-- Constant `websocket.CloseMessage`. -/
def CloseMessage : Nat := 8

/-- Constant `websocket.CloseNormalClosure`. -/
def CloseNormalClosure : Nat := 1000

/-- Constant `websocket.CloseNoStatusReceived`. -/
def CloseNoStatusReceived : Nat := 1005

/-- Library function `websocket.FormatCloseMessage`: the status code as a big-endian
`uint16`, followed by the octets of the reason text. -/
def FormatCloseMessage (closeCode : Nat) (text : String) : Bytes :=
  if closeCode = CloseNoStatusReceived then []
  else [closeCode % 2 ^ 16 / 2 ^ 8, closeCode % 2 ^ 8] ++ stringBytes text

/-- Constant `mail.TypeTextHTML`. -/
def TypeTextHTML : String := "text/html"

/-! ## config/config.go -/

structure App where
  Name : String
  LogLevel : String
deriving DecidableEq, Repr

structure Smtp where
  Server : String
  User : String
  Password : String
deriving DecidableEq, Repr

structure Email where
  Recipients : String
  Sender : String
  Smtp : Smtp
deriving DecidableEq, Repr

structure Notification where
  Email : Email
deriving DecidableEq, Repr

structure Auth where
  CertLocation : String
  KeyLocation : String
deriving DecidableEq, Repr

/-- In the source `Auth` is a pointer (`*Auth`): `none` is the nil pointer. -/
structure Server where
  Host : String
  Auth : Option Auth
  SubscriptionId : String
deriving DecidableEq, Repr

structure Fhir where
  Server : Server
deriving DecidableEq, Repr

structure AppConfig where
  App : App
  Fhir : Fhir
  Notification : Notification
deriving DecidableEq, Repr

/-! ## Values handed to and received from the libraries -/

/-- A `url.URL` as `NewClient` fills it. -/
structure URL where
  Scheme : String
  Host : String
  Path : String
deriving DecidableEq, Repr

/-- A loaded `tls.Certificate`, identified by the two files it was read from. -/
structure Certificate where
  certFile : String
  keyFile : String
deriving DecidableEq, Repr

/-- A `tls.Config` as `NewClient` fills it. -/
structure TlsConfig where
  Certificates : List Certificate
deriving DecidableEq, Repr

/-- A `mail.Client` as `NewEmailClient` configures it. -/
structure MailClient where
  host : String
  username : String
  password : String
deriving DecidableEq, Repr

/-- A `mail.Msg`: the headers and the body that `Send` sets. -/
structure Msg where
  sender : Option String
  recipients : List String
  subject : String
  body : Option (String × String)
deriving DecidableEq, Repr

/-- The message `mail.NewMsg()` returns. -/
def NewMsg : Msg :=
  { sender := none, recipients := [], subject := "", body := none }

/-- The library functions the program calls whose result depends only on their arguments
(or on files that do not change while the program runs). -/
structure Lib where
  /-- Function `tls.LoadX509KeyPair(certFile, keyFile)`. -/
  LoadX509KeyPair : String → String → Except Error Certificate
  /-- Function `mail.NewClient(host, opts...)` with the options `NewEmailClient` passes. -/
  NewMailClient : String → String → String → Except Error MailClient
  /-- Method `(*url.URL).String`. -/
  urlString : URL → String
  /-- Address parsing done by `(*mail.Msg).From`: the header value, or the error. -/
  parseFrom : String → Except Error String
  /-- Address parsing done by `(*mail.Msg).To`: the header values, or the error. -/
  parseTo : List String → Except Error (List String)
  /-- Function `json.Indent(&dst, src, "", "  ")`: the content of `dst`, or the error. -/
  Indent : Bytes → Except Error String
  /-- Function `quick.Highlight(&out, source, "json", "html", "monokailight")`. -/
  Highlight : String → Except Error String
  /-- Method `(*slog.LevelVar).UnmarshalText`: the error, `none` for nil. -/
  UnmarshalLevel : String → Option Error

/-! ## Observable effects -/

inductive Level where
  | info
  | error
deriving DecidableEq, Repr

/-- An attribute value of a structured log record. -/
inductive LogVal where
  | str (s : String)
  | strs (l : List String)
  | bytes (b : Bytes)
deriving DecidableEq, Repr

/-- What the process does that is visible from outside, or that a claim speaks about. -/
inductive Effect where
  /-- A call of `slog.Info` or `slog.Error`. -/
  | log (level : Level) (msg : String) (attrs : List (String × LogVal))
  /-- The call `dialer.Dial(url, nil)`. -/
  | dial (url : String)
  /-- The call `signal.Notify(interrupt, os.Interrupt)`. -/
  | notify
  /-- The `go` statement that starts the reader. -/
  | go
  /-- The call `conn.WriteMessage(messageType, data)`. -/
  | writeMessage (messageType : Nat) (data : Bytes)
  /-- The deferred `conn.Close()`. -/
  | connClose
  /-- The deferred `close(done)` of the reader. -/
  | closeDone
  /-- The call `c.emailClient.Send(msg)`. -/
  | send (msg : Bytes)
  /-- The call `c.client.DialAndSend(message)`. -/
  | dialAndSend (client : MailClient) (message : Msg)
  /-- The call `os.Exit(code)`. -/
  | exit (code : Nat)
deriving DecidableEq, Repr

/-- The result of running a piece of straight-line code: what it did, and whether it ended
in a run-time panic (a nil pointer dereference). -/
structure Outcome where
  effects : List Effect
  panicked : Bool
deriving DecidableEq, Repr

/-! ## notification/email.go -/

structure EmailClient where
  Sender : String
  Recipients : List String
  client : MailClient
deriving DecidableEq, Repr

/-- Function `NewEmailClient`: `none` is the nil pointer it returns when `mail.NewClient`
fails. -/
def NewEmailClient (lib : Lib) (config : Email) : List Effect × Option EmailClient :=
  match lib.NewMailClient config.Smtp.Server config.Smtp.User config.Smtp.Password with
  | .error err =>
    ([.log .error "Failed to create e-mail client" [("error", .str err)]], none)
  | .ok client =>
    ([], some { Sender := config.Sender,
                Recipients := config.Recipients.splitOn ",",
                client := client })

/-- Subject line set by `Send`. -/
def subjectLine : String := "💣 DSF Task failed"

/-- The statement `message.From(c.Sender)` with its error branch. -/
def setFrom (lib : Lib) (c : EmailClient) (message : Msg) : Msg × List Effect :=
  match lib.parseFrom c.Sender with
  | .ok a => ({ message with sender := some a }, [])
  | .error err =>
    (message, [.log .error "Failed to set FROM address."
                 [("sender", .str c.Sender), ("error", .str err)]])

/-- The statement `message.To(c.Recipients...)` with its error branch. -/
def setTo (lib : Lib) (c : EmailClient) (message : Msg) : Msg × List Effect :=
  match lib.parseTo c.Recipients with
  | .ok l => ({ message with recipients := l }, [])
  | .error err =>
    (message, [.log .error "Failed to set TO address."
                 [("recipients", .strs c.Recipients), ("error", .str err)]])

/-- The message after `From`, `To` and `Subject`, before the body is rendered. -/
def headerMsg (lib : Lib) (c : EmailClient) : Msg :=
  { (setTo lib c (setFrom lib c NewMsg).1).1 with subject := subjectLine }

/-- The log records of the `From` and `To` statements. -/
def headerLogs (lib : Lib) (c : EmailClient) : List Effect :=
  (setFrom lib c NewMsg).2 ++ (setTo lib c (setFrom lib c NewMsg).1).2

/-- Method `(*EmailClient).Send`.  `c = none` is a nil receiver: the first statement that
reads a field, `c.Sender`, panics.  `deliver` is what `DialAndSend` returns if it is
reached. -/
def Send (lib : Lib) (c : Option EmailClient) (msg : Bytes) (deliver : Option Error) :
    Outcome :=
  match c with
  | none => { effects := [], panicked := true }
  | some c =>
    match lib.Indent msg with
    | .error err =>
      { effects := headerLogs lib c ++
          [.log .error "Failed to parse JSON" [("error", .str err)]],
        panicked := false }
    | .ok msgf =>
      match lib.Highlight msgf with
      | .error err =>
        { effects := headerLogs lib c ++
            [.log .error "Failed to highlight JSON" [("error", .str err)]],
          panicked := false }
      | .ok out =>
        let message := { headerMsg lib c with body := some (TypeTextHTML, out) }
        match deliver with
        | some err =>
          { effects := headerLogs lib c ++
              [.dialAndSend c.client message,
               .log .error "Failed to deliver E-Mail" [("error", .str err)]],
            panicked := false }
        | none =>
          { effects := headerLogs lib c ++
              [.dialAndSend c.client message,
               .log .info "E-Mail notification successfully delivered" []],
            panicked := false }

/-! ## fhir/client.go -/

/-- The `Client` record.  Its `conn` field is never assigned in the source (the connection
lives in a local variable of `ConnectAndBind`) and is left out. -/
structure Client where
  wsUrl : URL
  tlsConfig : TlsConfig
  subscriptionId : String
  emailClient : Option EmailClient
deriving DecidableEq, Repr

/-- Function `NewClient`.  The outcome says whether evaluating
`config.Fhir.Server.Auth.CertLocation` panicked (nil `Auth`); the second component is the
returned pointer, `none` for nil. -/
def NewClient (lib : Lib) (config : AppConfig) : Outcome × Option Client :=
  match config.Fhir.Server.Auth with
  | none => ({ effects := [], panicked := true }, none)
  | some auth =>
    match lib.LoadX509KeyPair auth.CertLocation auth.KeyLocation with
    | .error err =>
      ({ effects := [.log .error "Failed to load certificates" [("error", .str err)]],
         panicked := false }, none)
    | .ok cert =>
      ({ effects := (NewEmailClient lib config.Notification.Email).1, panicked := false },
       some { wsUrl := { Scheme := "wss", Host := config.Fhir.Server.Host, Path := "/fhir/ws" },
              tlsConfig := { Certificates := [cert] },
              subscriptionId := config.Fhir.Server.SubscriptionId,
              emailClient := (NewEmailClient lib config.Notification.Email).2 })

/-- Method `(*Client).handleMessage`. -/
def handleMessage (lib : Lib) (c : Client) (msg : Bytes) (deliver : Option Error) : Outcome :=
  { effects := [.log .info "Message received" [("msg", .bytes msg)], .send msg] ++
      (Send lib c.emailClient msg deliver).effects,
    panicked := (Send lib c.emailClient msg deliver).panicked }

/-- Function `bindSubscription`: `writeErr` is what `WriteMessage` returns, and it is what
the function returns. -/
def bindSubscription (id : String) (writeErr : Option Error) : List Effect × Option Error :=
  ([.log .info "Bind to subscription " [("subscription-id", .str id)],
    .writeMessage TextMessage (stringBytes ("bind " ++ id))], writeErr)

/-- Function `closeConnection` up to its `select`: `writeErr` is what `WriteMessage`
returns; the second component tells whether the function goes on to the `select` that waits
for `done` or for one second, rather than returning at once. -/
def closeConnection (writeErr : Option Error) : List Effect × Bool :=
  match writeErr with
  | some err =>
    ([.log .info "Interrupt received. Sending close message..." [],
      .writeMessage CloseMessage (FormatCloseMessage CloseNormalClosure ""),
      .log .error "Failed to write close message to websocket" [("error", .str err)]], false)
  | none =>
    ([.log .info "Interrupt received. Sending close message..." [],
      .writeMessage CloseMessage (FormatCloseMessage CloseNormalClosure "")], true)

/-! ## The process -/

/-- What `conn.ReadMessage()` returns (the message type is discarded by the caller). -/
inductive ReadResult where
  | msg (p : Bytes)
  | err (e : Error)
deriving DecidableEq, Repr

/-- One step of the environment or of the scheduler. -/
inductive Event where
  /-- Return of `dialer.Dial`, with its error (`none` for nil). -/
  | dial (err : Option Error)
  /-- Return of the pending `conn.WriteMessage`, with its error. -/
  | write (err : Option Error)
  /-- Return of the reader's `conn.ReadMessage`; when a message is returned the reader
  handles it before anything else happens, and `deliver` is the result of the SMTP
  delivery, should `Send` get that far. -/
  | read (r : ReadResult) (deliver : Option Error)
  /-- Delivery of an interrupt signal to the process. -/
  | interrupt
  /-- A `select` takes its `<-done` case. -/
  | selectDone
  /-- The `select` of the wait loop takes its `<-interrupt` case. -/
  | selectInterrupt
  /-- The `select` of `closeConnection` takes its `<-time.After(time.Second)` case. -/
  | selectTimeout
deriving DecidableEq, Repr

/-- Where the goroutine that called `ConnectAndBind` stands. -/
inductive Pc where
  /-- Inside `dialer.Dial`. -/
  | entry
  /-- Dial succeeded, reader started; inside the `WriteMessage` of `bindSubscription`. -/
  | bind
  /-- At the top of `closeConnection`, before its `WriteMessage` has returned. -/
  | closeWrite
  /-- In the `select` of `closeConnection`. -/
  | closeWait
  /-- In the `select` of the `for` loop. -/
  | waitLoop
  /-- Method `ConnectAndBind` has returned this error (`none` for nil). -/
  | returned (err : Option Error)
  /-- The process was terminated by an interrupt that no channel was registered for. -/
  | killed
  /-- A nil pointer dereference ended the process. -/
  | panicked
  /-- Function `os.Exit` was called. -/
  | exited (code : Nat)
deriving DecidableEq, Repr

/-- Where the reader goroutine stands. -/
inductive ReaderPc where
  | notStarted
  /-- Inside `conn.ReadMessage`. -/
  | reading
  /-- Returned after a read error. -/
  | ended
  /-- A nil pointer dereference in `handleMessage` ended the process. -/
  | panicked
deriving DecidableEq, Repr

structure State where
  main : Pc
  reader : ReaderPc
  /-- Whether channel `done` is closed. -/
  done : Bool
  /-- How many signals are buffered in channel `interrupt` (capacity 1). -/
  interrupt : Nat
  trace : List Effect
deriving DecidableEq, Repr

/-- Whether the process is still running. -/
def alive (s : State) : Bool :=
  (match s.main with
   | .entry | .bind | .closeWrite | .closeWait | .waitLoop => true
   | _ => false) &&
  (match s.reader with
   | .panicked => false
   | _ => true)

/-- Method `(*Client).ConnectAndBind`, as the transitions of the goroutine that runs it,
from the moment it waits in `dialer.Dial` (see `enter` for its first statements). -/
def ConnectAndBind (c : Client) (s : State) (ev : Event) : Option State :=
  match s.main, ev with
  -- dialer.Dial failed: log, return err (nothing was deferred yet)
  | .entry, .dial (some err) =>
    some { s with
      main := .returned (some err),
      trace := s.trace ++
        [.log .error "Failed to connect to websocket" [("error", .str err)]] }
  -- dialer.Dial succeeded: defer conn.Close(), make the channels, Notify, start the reader
  | .entry, .dial none =>
    some { s with
      main := .bind,
      reader := .reading,
      trace := s.trace ++ [.notify, .go] }
  -- err = bindSubscription(conn, c.subscriptionId)
  | .bind, .write err =>
    match (bindSubscription c.subscriptionId err).2 with
    | some e =>
      some { s with
        main := .closeWrite,
        trace := s.trace ++ (bindSubscription c.subscriptionId err).1 ++
          [.log .error "Failed to bind to subscription"
             [("subscription-id", .str c.subscriptionId), ("error", .str e)]] }
    | none =>
      some { s with
        main := .waitLoop,
        trace := s.trace ++ (bindSubscription c.subscriptionId err).1 }
  -- closeConnection(conn, done), called after a failed bind or from the loop
  | .closeWrite, .write err =>
    some { s with
      main := if (closeConnection err).2 then .closeWait else .waitLoop,
      trace := s.trace ++ (closeConnection err).1 }
  -- select in closeConnection
  | .closeWait, .selectDone =>
    if s.done then some { s with main := .waitLoop } else none
  | .closeWait, .selectTimeout =>
    some { s with main := .waitLoop }
  -- select in the for loop
  | .waitLoop, .selectDone =>
    if s.done then
      some { s with main := .returned none, trace := s.trace ++ [.connClose] }
    else none
  | .waitLoop, .selectInterrupt =>
    if 0 < s.interrupt then
      some { s with main := .closeWrite, interrupt := s.interrupt - 1 }
    else none
  | _, _ => none

/-- The reader goroutine started by `ConnectAndBind`. -/
def reader (lib : Lib) (c : Client) (s : State) (ev : Event) : Option State :=
  match s.reader, ev with
  | .reading, .read (.err e) _ =>
    some { s with
      reader := .ended,
      done := true,
      trace := s.trace ++
        [.log .error "Failed to read message" [("error", .str e)], .closeDone] }
  | .reading, .read (.msg p) deliver =>
    if (handleMessage lib c p deliver).panicked then
      some { s with
        reader := .panicked,
        done := true,
        trace := s.trace ++ (handleMessage lib c p deliver).effects ++ [.closeDone] }
    else
      some { s with trace := s.trace ++ (handleMessage lib c p deliver).effects }
  | _, _ => none

/-- Delivery of an interrupt signal.  Before `signal.Notify` the default action ends the
process; afterwards the signal is put into the channel unless its one slot is taken. -/
def deliverInterrupt (s : State) : State :=
  match s.main with
  | .entry => { s with main := .killed }
  | _ => if s.interrupt < 1 then { s with interrupt := s.interrupt + 1 } else s

/-- One step of the process. -/
def step (lib : Lib) (c : Client) (s : State) (ev : Event) : Option State :=
  if alive s then
    match ev with
    | .interrupt => some (deliverInterrupt s)
    | .read r d => reader lib c s (.read r d)
    | e => ConnectAndBind c s e
  else none

/-- A whole execution: `none` when the schedule asks for a step that is not enabled. -/
def run (lib : Lib) (c : Client) (s : State) : List Event → Option State
  | [] => some s
  | ev :: evs =>
    match step lib c s ev with
    | some s' => run lib c s' evs
    | none => none

/-- The state in which `ConnectAndBind` is entered, after `pre` has happened: it logs and
calls `dialer.Dial`.  On a nil receiver the first statement, which reads `c.wsUrl`, panics
before anything is logged. -/
def enter (lib : Lib) (c : Option Client) (pre : List Effect) : State :=
  match c with
  | none => { main := .panicked, reader := .notStarted, done := false, interrupt := 0,
              trace := pre }
  | some c =>
    { main := .entry, reader := .notStarted, done := false, interrupt := 0,
      trace := pre ++
        [.log .info "Connecting to websocket" [("url", .str (lib.urlString c.wsUrl))],
         .dial (lib.urlString c.wsUrl)] }

/-- Function `config.ConfigureLogger`: installing the JSON handler is not observable; a
log level that cannot be parsed is reported. -/
def ConfigureLogger (lib : Lib) (c : AppConfig) : List Effect :=
  match lib.UnmarshalLevel c.App.LogLevel with
  | some err =>
    [.log .error "Unable to set Log level from application properties"
       [("level", .str c.App.LogLevel), ("error", .str err)]]
  | none => []

/-- Function `main`, up to the point where `ConnectAndBind` is entered.  `loaded` is the
outcome of `parseConfig` inside `config.LoadConfig`, which exits with status 1 on an
error. -/
def main (lib : Lib) (loaded : Except Error AppConfig) : Option Client × State :=
  match loaded with
  | .error err =>
    (none, { main := .exited 1, reader := .notStarted, done := false, interrupt := 0,
             trace := [.log .error "Unable to load config file" [("error", .str err)],
                       .exit 1] })
  | .ok appConfig =>
    if (NewClient lib appConfig).1.panicked then
      (none, { main := .panicked, reader := .notStarted, done := false, interrupt := 0,
               trace := ConfigureLogger lib appConfig ++
                 (NewClient lib appConfig).1.effects })
    else
      ((NewClient lib appConfig).2,
       enter lib (NewClient lib appConfig).2
         (ConfigureLogger lib appConfig ++ (NewClient lib appConfig).1.effects))

/-! ## Observations on a trace -/

/-- All frames written, in order, each with its message type. -/
def writes (tr : List Effect) : List (Nat × Bytes) :=
  tr.filterMap fun e =>
    match e with
    | .writeMessage t d => some (t, d)
    | _ => none

/-- Payloads of the text frames written, in order. -/
def textFrames (tr : List Effect) : List Bytes :=
  ((writes tr).filter fun w => w.1 = TextMessage).map fun w => w.2

/-- Payloads of the close-control frames the program wrote with `WriteMessage`, in order. -/
def closeFrames (tr : List Effect) : List Bytes :=
  ((writes tr).filter fun w => w.1 = CloseMessage).map fun w => w.2

/-- Arguments of the calls of the notifier's `Send`, in order. -/
def sendCalls (tr : List Effect) : List Bytes :=
  tr.filterMap fun e =>
    match e with
    | .send m => some m
    | _ => none

/-- Messages handed to `DialAndSend`, in order. -/
def deliveries (tr : List Effect) : List (MailClient × Msg) :=
  tr.filterMap fun e =>
    match e with
    | .dialAndSend cl m => some (cl, m)
    | _ => none

/-- URLs dialled, in order. -/
def dials (tr : List Effect) : List String :=
  tr.filterMap fun e =>
    match e with
    | .dial u => some u
    | _ => none

/-- How often `close(done)` ran. -/
def doneSignals (tr : List Effect) : Nat :=
  tr.countP fun e =>
    match e with
    | .closeDone => true
    | _ => false

/-- How often the connection was closed. -/
def connCloses (tr : List Effect) : Nat :=
  tr.countP fun e =>
    match e with
    | .connClose => true
    | _ => false

/-! ## Observations on a schedule -/

/-- Payloads that `ReadMessage` returns before its first error, in order. -/
def received : List Event → List Bytes
  | [] => []
  | .read (.msg p) _ :: evs => p :: received evs
  | .read (.err _) _ :: _ => []
  | _ :: evs => received evs

/-- Whether some `ReadMessage` returns an error. -/
def readFailed : List Event → Bool
  | [] => false
  | .read (.err _) _ :: _ => true
  | _ :: evs => readFailed evs

/-- What the first `WriteMessage` that returns, returns. -/
def firstWrite : List Event → Option (Option Error)
  | [] => none
  | .write r :: _ => some r
  | _ :: evs => firstWrite evs

/-- Whether the first `WriteMessage` that returns, the one of `bindSubscription`, fails. -/
def bindFailed (evs : List Event) : Bool :=
  match firstWrite evs with
  | some (some _) => true
  | _ => false

/-- How often the wait loop takes its `<-interrupt` case. -/
def observedInterrupts (evs : List Event) : Nat :=
  evs.countP fun e =>
    match e with
    | .selectInterrupt => true
    | _ => false

/-- How many interrupt signals are delivered. -/
def signals (evs : List Event) : Nat :=
  evs.countP fun e =>
    match e with
    | .interrupt => true
    | _ => false

/-- The state right after a successful dial: the reader runs, the bind message is about to
be written. -/
def dialled (lib : Lib) (c : Client) : State :=
  { main := .bind, reader := .reading, done := false, interrupt := 0,
    trace :=
      [.log .info "Connecting to websocket" [("url", .str (lib.urlString c.wsUrl))],
       .dial (lib.urlString c.wsUrl),
       .notify,
       .go] }

/-- The state in which `ConnectAndBind` has returned the dial error `e`. -/
def dialFailed (lib : Lib) (c : Client) (e : Error) : State :=
  { main := .returned (some e), reader := .notStarted, done := false, interrupt := 0,
    trace :=
      [.log .info "Connecting to websocket" [("url", .str (lib.urlString c.wsUrl))],
       .dial (lib.urlString c.wsUrl),
       .log .error "Failed to connect to websocket" [("error", .str e)]] }

/-! ## The transition relation and the invariant -/

/-- The transitions of `step`, one constructor for each. -/
inductive Step (lib : Lib) (c : Client) : State → Event → State → Prop
  | signal (s : State) : alive s = true → Step lib c s .interrupt (deliverInterrupt s)
  | readErr (s : State) (e : Error) (d : Option Error) :
    alive s = true → s.reader = .reading →
    Step lib c s (.read (.err e) d)
      { s with
        reader := .ended,
        done := true,
        trace := s.trace ++
          [.log .error "Failed to read message" [("error", .str e)], .closeDone] }
  | readMsg (s : State) (p : Bytes) (d : Option Error) :
    alive s = true → s.reader = .reading → (handleMessage lib c p d).panicked = false →
    Step lib c s (.read (.msg p) d)
      { s with trace := s.trace ++ (handleMessage lib c p d).effects }
  | readPanic (s : State) (p : Bytes) (d : Option Error) :
    alive s = true → s.reader = .reading → (handleMessage lib c p d).panicked = true →
    Step lib c s (.read (.msg p) d)
      { s with
        reader := .panicked,
        done := true,
        trace := s.trace ++ (handleMessage lib c p d).effects ++ [.closeDone] }
  | dialErr (s : State) (e : Error) :
    alive s = true → s.main = .entry →
    Step lib c s (.dial (some e))
      { s with
        main := .returned (some e),
        trace := s.trace ++
          [.log .error "Failed to connect to websocket" [("error", .str e)]] }
  | dialOk (s : State) :
    alive s = true → s.main = .entry →
    Step lib c s (.dial none)
      { s with
        main := .bind,
        reader := .reading,
        trace := s.trace ++ [.notify, .go] }
  | bindErr (s : State) (e : Error) :
    alive s = true → s.main = .bind →
    Step lib c s (.write (some e))
      { s with
        main := .closeWrite,
        trace := s.trace ++ (bindSubscription c.subscriptionId (some e)).1 ++
          [.log .error "Failed to bind to subscription"
             [("subscription-id", .str c.subscriptionId), ("error", .str e)]] }
  | bindOk (s : State) :
    alive s = true → s.main = .bind →
    Step lib c s (.write none)
      { s with
        main := .waitLoop,
        trace := s.trace ++ (bindSubscription c.subscriptionId none).1 }
  | closeErr (s : State) (e : Error) :
    alive s = true → s.main = .closeWrite →
    Step lib c s (.write (some e))
      { s with main := .waitLoop, trace := s.trace ++ (closeConnection (some e)).1 }
  | closeOk (s : State) :
    alive s = true → s.main = .closeWrite →
    Step lib c s (.write none)
      { s with main := .closeWait, trace := s.trace ++ (closeConnection none).1 }
  | drained (s : State) :
    alive s = true → s.main = .closeWait → s.done = true →
    Step lib c s .selectDone { s with main := .waitLoop }
  | timedOut (s : State) :
    alive s = true → s.main = .closeWait →
    Step lib c s .selectTimeout { s with main := .waitLoop }
  | finished (s : State) :
    alive s = true → s.main = .waitLoop → s.done = true →
    Step lib c s .selectDone
      { s with main := .returned none, trace := s.trace ++ [.connClose] }
  | interrupted (s : State) :
    alive s = true → s.main = .waitLoop → 0 < s.interrupt →
    Step lib c s .selectInterrupt
      { s with main := .closeWrite, interrupt := s.interrupt - 1 }

/-- What holds in every state reached after a successful dial. -/
structure Connected (c : Client) (s : State) : Prop where
  pc : s.main = .bind ∨ s.main = .closeWrite ∨ s.main = .closeWait ∨ s.main = .waitLoop ∨
    s.main = .returned none
  text : textFrames s.trace =
    if s.main = .bind then [] else [stringBytes ("bind " ++ c.subscriptionId)]
  started : s.reader ≠ .notStarted
  done : s.done = true ↔ (s.reader = .ended ∨ s.reader = .panicked)
  ret : s.main = .returned none → s.reader = .ended
  buf : s.interrupt ≤ 1
  released : connCloses s.trace = if s.main = .returned none then 1 else 0

/-! ## Concrete inputs -/

/-- A stand-in for the libraries, used to evaluate the program on concrete inputs.  It agrees
with the real libraries where the inputs below need it: `mail.NewClient` rejects an empty
host name, `json.Indent` rejects a payload that is not JSON and leaves `{}` as it is. -/
def stubLib : Lib where
  LoadX509KeyPair cert key :=
    if cert = "" ∨ key = "" then .error "open : no such file or directory"
    else .ok { certFile := cert, keyFile := key }
  NewMailClient host user pw :=
    if host = "" then .error "hostname for client cannot be empty"
    else .ok { host := host, username := user, password := pw }
  urlString u := u.Scheme ++ "://" ++ u.Host ++ u.Path
  parseFrom a := if a = "" then .error "mail: no address" else .ok a
  parseTo l := if "" ∈ l then .error "mail: no address" else .ok l
  Indent b :=
    if b = stringBytes "{}" then .ok "{}"
    else .error "invalid character 'o' in literal null (expecting 'u')"
  Highlight s := .ok ("<pre>" ++ s ++ "</pre>")
  UnmarshalLevel l :=
    if l = "debug" ∨ l = "info" ∨ l = "warn" ∨ l = "error" then none
    else some "slog: level string: unknown name"

/-- A notifier for the concrete inputs. -/
def demoEmailClient : EmailClient :=
  { Sender := "alarm@example.org",
    Recipients := ["ops@example.org"],
    client := { host := "smtp.example.org", username := "u", password := "p" } }

/-- A session for the concrete inputs. -/
def demoClient : Client :=
  { wsUrl := { Scheme := "wss", Host := "fhir.example.org", Path := "/fhir/ws" },
    tlsConfig := { Certificates := [{ certFile := "c.pem", keyFile := "k.pem" }] },
    subscriptionId := "42",
    emailClient := some demoEmailClient }

/-- A configuration whose certificate loads and whose SMTP server name is empty, so that
`mail.NewClient` fails. -/
def noSmtpConfig : AppConfig :=
  { App := { Name := "fhir-alarm", LogLevel := "info" },
    Fhir := { Server := { Host := "fhir.example.org",
                          Auth := some { CertLocation := "c.pem", KeyLocation := "k.pem" },
                          SubscriptionId := "42" } },
    Notification := { Email := { Recipients := "ops@example.org",
                                 Sender := "alarm@example.org",
                                 Smtp := { Server := "", User := "u", Password := "p" } } } }

/-- A configuration whose certificate cannot be loaded. -/
def noCertConfig : AppConfig :=
  { App := { Name := "fhir-alarm", LogLevel := "info" },
    Fhir := { Server := { Host := "fhir.example.org",
                          Auth := some { CertLocation := "", KeyLocation := "k.pem" },
                          SubscriptionId := "42" } },
    Notification := { Email := { Recipients := "ops@example.org",
                                 Sender := "alarm@example.org",
                                 Smtp := { Server := "smtp.example.org", User := "u",
                                           Password := "p" } } } }

/-- The session `NewClient` builds from `noSmtpConfig`: its notifier is nil. -/
def noNotifierClient : Client :=
  { wsUrl := { Scheme := "wss", Host := "fhir.example.org", Path := "/fhir/ws" },
    tlsConfig := { Certificates := [{ certFile := "c.pem", keyFile := "k.pem" }] },
    subscriptionId := "42",
    emailClient := none }

/-- A schedule in which the bind succeeds, one event is handled and the connection then
drops: the read fails without a close frame from the peer, and no interrupt arrives. -/
def remoteClose : List Event :=
  [.dial none, .write none, .read (.msg (stringBytes "{}")) none,
   .read (.err "websocket: close 1006 (abnormal closure): unexpected EOF") none,
   .selectDone]

/-- What happens after a successful dial when the read fails first and an interrupt is
delivered afterwards but the wait loop takes its `<-done` case. -/
def lateInterruptUnobserved : List Event :=
  [.write none, .read (.err "EOF") none, .interrupt, .selectDone]

/-- What happens after a successful dial when the read fails first and an interrupt that is
delivered afterwards is taken by the wait loop before its `<-done` case. -/
def lateInterruptObserved : List Event :=
  [.write none, .read (.err "EOF") none, .interrupt, .selectInterrupt, .write none,
   .selectDone, .selectDone]

/-- A schedule with two interrupts, each observed by the wait loop, before the remote end
closes the stream. -/
def twoInterrupts : List Event :=
  [.dial none, .interrupt, .write none, .selectInterrupt, .write none, .selectTimeout,
   .interrupt, .selectInterrupt, .write (some "broken pipe"), .read (.err "EOF") none,
   .selectDone]

/-- A schedule in which the bind write fails, the close frame is written and the remote
end then closes the stream. -/
def bindFails : List Event :=
  [.dial none, .read (.msg (stringBytes "{}")) none, .write (some "broken pipe"),
   .write none, .read (.err "EOF") none, .selectDone, .selectDone]

/-- What happens after a successful dial in a session that receives three frames, the
second of which cannot be delivered and the third of which is empty, before the read
fails. -/
def threeFrames : List Event :=
  [.read (.msg [1, 2]) none, .write none, .interrupt,
   .read (.msg (stringBytes "{}")) (some "smtp down"), .read (.msg []) none,
   .read (.err "EOF") none]

/-- The state an execution of `demoClient` ends in, or the entry state if the schedule is
not one the program can perform. -/
def demoRun (evs : List Event) : State :=
  (run stubLib demoClient (enter stubLib (some demoClient) []) evs).getD (enter stubLib (some demoClient) [])

/-! ## Lemmas on traces -/

@[simp] theorem writes_nil : writes [] = [] := rfl

@[simp] theorem writes_cons (e : Effect) (l : List Effect) :
    writes (e :: l) =
      (match e with
       | .writeMessage t d => [(t, d)]
       | _ => []) ++ writes l := by
  cases e <;> simp [writes]

@[simp] theorem sendCalls_nil : sendCalls [] = [] := rfl

@[simp] theorem sendCalls_cons (e : Effect) (l : List Effect) :
    sendCalls (e :: l) =
      (match e with
       | .send m => [m]
       | _ => []) ++ sendCalls l := by
  cases e <;> simp [sendCalls]

@[simp] theorem deliveries_nil : deliveries [] = [] := rfl

@[simp] theorem deliveries_cons (e : Effect) (l : List Effect) :
    deliveries (e :: l) =
      (match e with
       | .dialAndSend cl m => [(cl, m)]
       | _ => []) ++ deliveries l := by
  cases e <;> simp [deliveries]

@[simp] theorem doneSignals_nil : doneSignals [] = 0 := rfl

@[simp] theorem doneSignals_cons (e : Effect) (l : List Effect) :
    doneSignals (e :: l) =
      (match e with
       | .closeDone => 1
       | _ => 0) + doneSignals l := by
  cases e <;> simp [doneSignals, List.countP_cons, Nat.add_comm]

@[simp] theorem connCloses_nil : connCloses [] = 0 := rfl

@[simp] theorem connCloses_cons (e : Effect) (l : List Effect) :
    connCloses (e :: l) =
      (match e with
       | .connClose => 1
       | _ => 0) + connCloses l := by
  cases e <;> simp [connCloses, List.countP_cons, Nat.add_comm]

@[simp] theorem textFrames_nil : textFrames [] = [] := rfl

@[simp] theorem closeFrames_nil : closeFrames [] = [] := rfl

@[simp] theorem textFrames_cons (e : Effect) (l : List Effect) :
    textFrames (e :: l) =
      (match e with
       | .writeMessage t d => if t = TextMessage then [d] else []
       | _ => []) ++ textFrames l := by
  cases e <;> simp [textFrames]
  split <;> simp_all

@[simp] theorem closeFrames_cons (e : Effect) (l : List Effect) :
    closeFrames (e :: l) =
      (match e with
       | .writeMessage t d => if t = CloseMessage then [d] else []
       | _ => []) ++ closeFrames l := by
  cases e <;> simp [closeFrames]
  split <;> simp_all

@[simp] theorem writes_append (a b : List Effect) : writes (a ++ b) = writes a ++ writes b := by
  simp [writes]

@[simp] theorem textFrames_append (a b : List Effect) :
    textFrames (a ++ b) = textFrames a ++ textFrames b := by
  simp [textFrames]

@[simp] theorem closeFrames_append (a b : List Effect) :
    closeFrames (a ++ b) = closeFrames a ++ closeFrames b := by
  simp [closeFrames]

@[simp] theorem sendCalls_append (a b : List Effect) :
    sendCalls (a ++ b) = sendCalls a ++ sendCalls b := by
  simp [sendCalls]

@[simp] theorem deliveries_append (a b : List Effect) :
    deliveries (a ++ b) = deliveries a ++ deliveries b := by
  simp [deliveries]

@[simp] theorem doneSignals_append (a b : List Effect) :
    doneSignals (a ++ b) = doneSignals a + doneSignals b := by
  simp [doneSignals]

@[simp] theorem connCloses_append (a b : List Effect) :
    connCloses (a ++ b) = connCloses a + connCloses b := by
  simp [connCloses]

theorem stringBytes_append (s t : String) :
    stringBytes (s ++ t) = stringBytes s ++ stringBytes t := by
  simp [stringBytes]

theorem FormatCloseMessage_normal : FormatCloseMessage CloseNormalClosure "" = [3, 232] := by
  decide

/-- The effects of the `From` and `To` statements are log records only. -/
theorem headerLogs_log (lib : Lib) (c : EmailClient) :
    ∀ e ∈ headerLogs lib c, ∃ l m a, e = .log l m a := by
  intro e he
  simp only [headerLogs, setFrom, setTo, List.mem_append] at he
  rcases he with he | he
  · split at he <;> simp at he
    exact ⟨_, _, _, he⟩
  · split at he <;> simp at he
    exact ⟨_, _, _, he⟩

@[simp] theorem writes_headerLogs (lib : Lib) (c : EmailClient) :
    writes (headerLogs lib c) = [] := by
  simp only [writes, List.filterMap_eq_nil_iff]
  intro e he
  obtain ⟨l, m, a, rfl⟩ := headerLogs_log lib c e he
  rfl

@[simp] theorem sendCalls_headerLogs (lib : Lib) (c : EmailClient) :
    sendCalls (headerLogs lib c) = [] := by
  simp only [sendCalls, List.filterMap_eq_nil_iff]
  intro e he
  obtain ⟨l, m, a, rfl⟩ := headerLogs_log lib c e he
  rfl

@[simp] theorem deliveries_headerLogs (lib : Lib) (c : EmailClient) :
    deliveries (headerLogs lib c) = [] := by
  simp only [deliveries, List.filterMap_eq_nil_iff]
  intro e he
  obtain ⟨l, m, a, rfl⟩ := headerLogs_log lib c e he
  rfl

@[simp] theorem doneSignals_headerLogs (lib : Lib) (c : EmailClient) :
    doneSignals (headerLogs lib c) = 0 := by
  simp only [doneSignals, List.countP_eq_zero]
  intro e he
  obtain ⟨l, m, a, rfl⟩ := headerLogs_log lib c e he
  simp

@[simp] theorem connCloses_headerLogs (lib : Lib) (c : EmailClient) :
    connCloses (headerLogs lib c) = 0 := by
  simp only [connCloses, List.countP_eq_zero]
  intro e he
  obtain ⟨l, m, a, rfl⟩ := headerLogs_log lib c e he
  simp

@[simp] theorem writes_Send (lib : Lib) (c : Option EmailClient) (msg : Bytes)
    (d : Option Error) : writes (Send lib c msg d).effects = [] := by
  unfold Send
  repeat' split
  all_goals simp

@[simp] theorem sendCalls_Send (lib : Lib) (c : Option EmailClient) (msg : Bytes)
    (d : Option Error) : sendCalls (Send lib c msg d).effects = [] := by
  unfold Send
  repeat' split
  all_goals simp

@[simp] theorem doneSignals_Send (lib : Lib) (c : Option EmailClient) (msg : Bytes)
    (d : Option Error) : doneSignals (Send lib c msg d).effects = 0 := by
  unfold Send
  repeat' split
  all_goals simp

@[simp] theorem connCloses_Send (lib : Lib) (c : Option EmailClient) (msg : Bytes)
    (d : Option Error) : connCloses (Send lib c msg d).effects = 0 := by
  unfold Send
  repeat' split
  all_goals simp

@[simp] theorem writes_handleMessage (lib : Lib) (c : Client) (msg : Bytes)
    (d : Option Error) : writes (handleMessage lib c msg d).effects = [] := by
  simp [handleMessage]

@[simp] theorem sendCalls_handleMessage (lib : Lib) (c : Client) (msg : Bytes)
    (d : Option Error) : sendCalls (handleMessage lib c msg d).effects = [msg] := by
  simp [handleMessage]

@[simp] theorem doneSignals_handleMessage (lib : Lib) (c : Client) (msg : Bytes)
    (d : Option Error) : doneSignals (handleMessage lib c msg d).effects = 0 := by
  simp [handleMessage]

@[simp] theorem connCloses_handleMessage (lib : Lib) (c : Client) (msg : Bytes)
    (d : Option Error) : connCloses (handleMessage lib c msg d).effects = 0 := by
  simp [handleMessage]

@[simp] theorem writes_bindSubscription (id : String) (r : Option Error) :
    writes (bindSubscription id r).1 = [(TextMessage, stringBytes ("bind " ++ id))] := by
  simp [bindSubscription]

@[simp] theorem writes_closeConnection (r : Option Error) :
    writes (closeConnection r).1 =
      [(CloseMessage, FormatCloseMessage CloseNormalClosure "")] := by
  cases r <;> simp [closeConnection]

@[simp] theorem connCloses_bindSubscription (id : String) (r : Option Error) :
    connCloses (bindSubscription id r).1 = 0 := by
  simp [bindSubscription]

@[simp] theorem connCloses_closeConnection (r : Option Error) :
    connCloses (closeConnection r).1 = 0 := by
  cases r <;> simp [closeConnection]

@[simp] theorem sendCalls_bindSubscription (id : String) (r : Option Error) :
    sendCalls (bindSubscription id r).1 = [] := by
  simp [bindSubscription]

@[simp] theorem sendCalls_closeConnection (r : Option Error) :
    sendCalls (closeConnection r).1 = [] := by
  cases r <;> simp [closeConnection]

@[simp] theorem doneSignals_bindSubscription (id : String) (r : Option Error) :
    doneSignals (bindSubscription id r).1 = 0 := by
  simp [bindSubscription]

@[simp] theorem doneSignals_closeConnection (r : Option Error) :
    doneSignals (closeConnection r).1 = 0 := by
  cases r <;> simp [closeConnection]

@[simp] theorem textFrames_handleMessage (lib : Lib) (c : Client) (msg : Bytes)
    (d : Option Error) : textFrames (handleMessage lib c msg d).effects = [] := by
  simp [textFrames]

@[simp] theorem closeFrames_handleMessage (lib : Lib) (c : Client) (msg : Bytes)
    (d : Option Error) : closeFrames (handleMessage lib c msg d).effects = [] := by
  simp [closeFrames]

@[simp] theorem textFrames_bindSubscription (id : String) (r : Option Error) :
    textFrames (bindSubscription id r).1 = [stringBytes ("bind " ++ id)] := by
  simp [textFrames]

@[simp] theorem closeFrames_bindSubscription (id : String) (r : Option Error) :
    closeFrames (bindSubscription id r).1 = [] := by
  simp [closeFrames, TextMessage, CloseMessage]

@[simp] theorem textFrames_closeConnection (r : Option Error) :
    textFrames (closeConnection r).1 = [] := by
  simp [textFrames, TextMessage, CloseMessage]

@[simp] theorem closeFrames_closeConnection (r : Option Error) :
    closeFrames (closeConnection r).1 = [FormatCloseMessage CloseNormalClosure ""] := by
  simp [closeFrames]

@[simp] theorem deliverInterrupt_reader (s : State) :
    (deliverInterrupt s).reader = s.reader := by
  unfold deliverInterrupt
  split
  · rfl
  · split <;> rfl

@[simp] theorem deliverInterrupt_trace (s : State) :
    (deliverInterrupt s).trace = s.trace := by
  unfold deliverInterrupt
  split
  · rfl
  · split <;> rfl

@[simp] theorem deliverInterrupt_done (s : State) :
    (deliverInterrupt s).done = s.done := by
  unfold deliverInterrupt
  split
  · rfl
  · split <;> rfl

theorem deliverInterrupt_main {s : State} (h : s.main ≠ .entry) :
    (deliverInterrupt s).main = s.main := by
  unfold deliverInterrupt
  split
  · simp_all
  · split <;> rfl

theorem Connected.main_ne_entry {c : Client} {s : State} (hI : Connected c s) :
    s.main ≠ .entry := by
  intro h
  have := hI.pc
  simp [h] at this

theorem alive_reader {s : State} (h : alive s = true) : s.reader ≠ .panicked := by
  intro hp
  simp [alive, hp] at h

theorem Step_alive {lib : Lib} {c : Client} {s s' : State} {ev : Event}
    (h : Step lib c s ev s') : alive s = true := by
  cases h <;> assumption

/-! ## Steps -/

theorem step_Step {lib : Lib} {c : Client} {s s' : State} {ev : Event}
    (h : step lib c s ev = some s') : Step lib c s ev s' := by
  unfold step at h
  split at h
  next ha =>
    rcases s with ⟨m, rd, dn, i, tr⟩
    cases ev with
    | interrupt =>
      simp only [Option.some.injEq] at h
      subst h
      exact .signal _ ha
    | read r d =>
      cases rd <;> cases r <;> simp only [reader, reduceCtorEq] at h
      · split at h <;> simp only [Option.some.injEq] at h <;> subst h
        · next hp => exact .readPanic _ _ _ ha rfl hp
        · next hp => exact .readMsg _ _ _ ha rfl (Bool.eq_false_iff.mpr hp)
      · simp only [Option.some.injEq] at h
        subst h
        exact .readErr _ _ _ ha rfl
    | dial e =>
      cases m <;> cases e <;> simp only [ConnectAndBind, reduceCtorEq] at h
      · simp only [Option.some.injEq] at h
        subst h
        exact .dialOk _ ha rfl
      · simp only [Option.some.injEq] at h
        subst h
        exact .dialErr _ _ ha rfl
    | write e =>
      cases m <;> cases e <;>
        simp only [ConnectAndBind, bindSubscription, closeConnection, reduceCtorEq] at h
      · simp only [Option.some.injEq] at h
        subst h
        exact .bindOk _ ha rfl
      · simp only [Option.some.injEq] at h
        subst h
        exact .bindErr _ _ ha rfl
      · simp only [Option.some.injEq] at h
        subst h
        exact .closeOk _ ha rfl
      · simp only [Option.some.injEq] at h
        subst h
        exact .closeErr _ _ ha rfl
    | selectDone =>
      cases m <;> simp only [ConnectAndBind, reduceCtorEq] at h
      · split at h <;> simp only [Option.some.injEq, reduceCtorEq] at h
        subst h
        exact .drained _ ha rfl (by assumption)
      · split at h <;> simp only [Option.some.injEq, reduceCtorEq] at h
        subst h
        exact .finished _ ha rfl (by assumption)
    | selectTimeout =>
      cases m <;> simp only [ConnectAndBind, reduceCtorEq] at h
      simp only [Option.some.injEq] at h
      subst h
      exact .timedOut _ ha rfl
    | selectInterrupt =>
      cases m <;> simp only [ConnectAndBind, reduceCtorEq] at h
      split at h <;> simp only [Option.some.injEq, reduceCtorEq] at h
      subst h
      exact .interrupted _ ha rfl (by assumption)
  next => simp at h


theorem Step_Connected {lib : Lib} {c : Client} {s s' : State} {ev : Event}
    (hI : Connected c s) (h : Step lib c s ev s') : Connected c s' := by
  have hal := alive_reader (Step_alive h)
  obtain ⟨hconn, htext, hrd, hdone, hret, hbuf, hrel⟩ := hI
  cases h with
  | signal ha =>
    unfold deliverInterrupt
    split
    · simp_all
    · split
      · constructor <;> simp_all
      · constructor <;> simp_all
  | _ => constructor <;> simp_all


/-! ## Executions -/

theorem run_cons_iff {lib : Lib} {c : Client} {s s' : State} {ev : Event}
    {evs : List Event} :
    run lib c s (ev :: evs) = some s' ↔
      ∃ s1, step lib c s ev = some s1 ∧ run lib c s1 evs = some s' := by
  simp only [run]
  cases step lib c s ev <;> simp

theorem run_cons {lib : Lib} {c : Client} {s s' : State} {ev : Event} {evs : List Event}
    (h : run lib c s (ev :: evs) = some s') :
    ∃ s1, Step lib c s ev s1 ∧ run lib c s1 evs = some s' := by
  obtain ⟨s1, h1, h2⟩ := run_cons_iff.mp h
  exact ⟨s1, step_Step h1, h2⟩

theorem run_append {lib : Lib} {c : Client} {s s' : State} {as bs : List Event}
    (h : run lib c s (as ++ bs) = some s') :
    ∃ s1, run lib c s as = some s1 ∧ run lib c s1 bs = some s' := by
  induction as generalizing s with
  | nil => exact ⟨s, rfl, h⟩
  | cons a as ih =>
    rw [List.cons_append, run_cons_iff] at h
    obtain ⟨s1, h1, h2⟩ := h
    obtain ⟨s2, h3, h4⟩ := ih h2
    exact ⟨s2, run_cons_iff.mpr ⟨s1, h1, h3⟩, h4⟩

theorem run_append_of {lib : Lib} {c : Client} {s s1 s' : State} {as bs : List Event}
    (h1 : run lib c s as = some s1) (h2 : run lib c s1 bs = some s') :
    run lib c s (as ++ bs) = some s' := by
  induction as generalizing s with
  | nil =>
    simp only [run, Option.some.injEq] at h1
    subst h1
    exact h2
  | cons a as ih =>
    rw [run_cons_iff] at h1
    obtain ⟨t, ht, h3⟩ := h1
    rw [List.cons_append, run_cons_iff]
    exact ⟨t, ht, ih h3⟩

theorem run_dial_ok (lib : Lib) (c : Client) (evs : List Event) :
    run lib c (enter lib (some c) []) (.dial none :: evs) = run lib c (dialled lib c) evs := by
  rfl

theorem Connected_dialled (lib : Lib) (c : Client) : Connected c (dialled lib c) := by
  constructor <;> simp [dialled]

theorem run_Connected {lib : Lib} {c : Client} {s s' : State} {evs : List Event}
    (hI : Connected c s) (h : run lib c s evs = some s') : Connected c s' := by
  induction evs generalizing s with
  | nil =>
    simp only [run, Option.some.injEq] at h
    exact h ▸ hI
  | cons ev evs ih =>
    obtain ⟨s1, h1, h2⟩ := run_cons h
    exact ih (Step_Connected hI h1) h2


/-! ### The reader -/

theorem Send_panicked (lib : Lib) (c : Option EmailClient) (msg : Bytes) (d : Option Error) :
    (Send lib c msg d).panicked = true ↔ c = none := by
  unfold Send
  repeat' split
  all_goals simp

theorem run_ended {lib : Lib} {c : Client} {s s' : State} {evs : List Event}
    (hI : Connected c s) (hr : s.reader = .ended) (h : run lib c s evs = some s') :
    sendCalls s'.trace = sendCalls s.trace ∧ doneSignals s'.trace = doneSignals s.trace ∧
      s'.reader = .ended := by
  induction evs generalizing s with
  | nil =>
    simp only [run, Option.some.injEq] at h
    subst h
    exact ⟨rfl, rfl, hr⟩
  | cons ev evs ih =>
    obtain ⟨s1, h1, h2⟩ := run_cons h
    have hI1 := Step_Connected hI h1
    have key : sendCalls s1.trace = sendCalls s.trace ∧
        doneSignals s1.trace = doneSignals s.trace ∧ s1.reader = .ended := by
      have hpc := hI.pc
      cases h1 <;> simp_all
    obtain ⟨k1, k2, k3⟩ := key
    obtain ⟨i1, i2, i3⟩ := ih hI1 k3 h2
    exact ⟨i1.trans k1, i2.trans k2, i3⟩

theorem run_reading {lib : Lib} {c : Client} {s s' : State} {evs : List Event}
    (hI : Connected c s) (hc : c.emailClient ≠ none) (hr : s.reader = .reading)
    (h : run lib c s evs = some s') :
    sendCalls s'.trace = sendCalls s.trace ++ received evs ∧
      doneSignals s'.trace = doneSignals s.trace + (if readFailed evs then 1 else 0) ∧
      s'.reader = (if readFailed evs then .ended else .reading) := by
  induction evs generalizing s with
  | nil =>
    simp only [run, Option.some.injEq] at h
    subst h
    simp [received, readFailed, hr]
  | cons ev evs ih =>
    obtain ⟨s1, h1, h2⟩ := run_cons h
    have hI1 := Step_Connected hI h1
    have hpc := hI.pc
    cases h1 with
    | readErr e d ha hrd =>
      obtain ⟨i1, i2, i3⟩ := run_ended hI1 rfl h2
      simp_all [received, readFailed]
    | readMsg p d ha hrd hp =>
      obtain ⟨i1, i2, i3⟩ := ih hI1 hr h2
      simp_all [received, readFailed]
    | readPanic p d ha hrd hp =>
      simp [handleMessage, Send_panicked] at hp
      exact absurd hp hc
    | dialOk ha hm => simp_all
    | dialErr e ha hm => simp_all
    | _ =>
      obtain ⟨i1, i2, i3⟩ := ih hI1 (by simpa using hr) h2
      simp_all [received, readFailed]


/-! ### The close handshake -/

theorem Step_closes {lib : Lib} {c : Client} {s s' : State} {ev : Event}
    (hI : Connected c s) (h : Step lib c s ev s') :
    (closeFrames s'.trace).length + (if s'.main = .closeWrite then 1 else 0) =
      (closeFrames s.trace).length + (if s.main = .closeWrite then 1 else 0) +
        (match ev with
         | .selectInterrupt => 1
         | .write (some _) => if s.main = .bind then 1 else 0
         | _ => 0) := by
  have hne := hI.main_ne_entry
  cases h <;> simp_all [deliverInterrupt_main]

theorem Step_bind {lib : Lib} {c : Client} {s s' : State} {ev : Event}
    (hI : Connected c s) (hm : s.main ≠ .bind) (h : Step lib c s ev s') :
    s'.main ≠ .bind := by
  have hne := hI.main_ne_entry
  cases h <;> simp_all [deliverInterrupt_main]

theorem run_closes_past {lib : Lib} {c : Client} {s s' : State} {evs : List Event}
    (hI : Connected c s) (hm : s.main ≠ .bind) (h : run lib c s evs = some s') :
    (closeFrames s'.trace).length + (if s'.main = .closeWrite then 1 else 0) =
      (closeFrames s.trace).length + (if s.main = .closeWrite then 1 else 0) +
        observedInterrupts evs := by
  induction evs generalizing s with
  | nil =>
    simp only [run, Option.some.injEq] at h
    subst h
    simp [observedInterrupts]
  | cons ev evs ih =>
    obtain ⟨s1, h1, h2⟩ := run_cons h
    have e1 := Step_closes hI h1
    have e2 := ih (Step_Connected hI h1) (Step_bind hI hm h1) h2
    rw [e2, e1]
    cases h1 <;> simp_all [observedInterrupts, List.countP_cons]
    omega

theorem run_closes_bind {lib : Lib} {c : Client} {s s' : State} {evs : List Event}
    (hI : Connected c s) (hm : s.main = .bind) (h : run lib c s evs = some s') :
    (closeFrames s'.trace).length + (if s'.main = .closeWrite then 1 else 0) =
      (closeFrames s.trace).length + observedInterrupts evs +
        (if bindFailed evs then 1 else 0) := by
  induction evs generalizing s with
  | nil =>
    simp only [run, Option.some.injEq] at h
    subst h
    simp [observedInterrupts, bindFailed, firstWrite, hm]
  | cons ev evs ih =>
    obtain ⟨s1, h1, h2⟩ := run_cons h
    have hI1 := Step_Connected hI h1
    have e1 := Step_closes hI h1
    have hne := hI.main_ne_entry
    cases h1 with
    | bindErr e ha hb =>
      have e2 := run_closes_past hI1 (by simp) h2
      simp_all [observedInterrupts, List.countP_cons, bindFailed, firstWrite]
      omega
    | bindOk ha hb =>
      have e2 := run_closes_past hI1 (by simp) h2
      simp_all [observedInterrupts, List.countP_cons, bindFailed, firstWrite]
    | signal ha =>
      have e2 := ih hI1 (by rw [deliverInterrupt_main hne]; exact hm) h2
      simp_all [observedInterrupts, List.countP_cons, bindFailed, firstWrite]
    | readErr e d ha hr =>
      have e2 := ih hI1 (by simpa using hm) h2
      simp_all [observedInterrupts, List.countP_cons, bindFailed, firstWrite]
    | readMsg p d ha hr hp =>
      have e2 := ih hI1 (by simpa using hm) h2
      simp_all [observedInterrupts, List.countP_cons, bindFailed, firstWrite]
    | readPanic p d ha hr hp =>
      have e2 := ih hI1 (by simpa using hm) h2
      simp_all [observedInterrupts, List.countP_cons, bindFailed, firstWrite]
    | _ => simp_all


theorem run_bind_pending {lib : Lib} {c : Client} {s s' : State} {evs : List Event}
    (hI : Connected c s) (hm : s.main = .bind) (hw : firstWrite evs = none)
    (h : run lib c s evs = some s') :
    s'.main = .bind ∧ closeFrames s'.trace = closeFrames s.trace ∧
      observedInterrupts evs = 0 := by
  induction evs generalizing s with
  | nil =>
    simp only [run, Option.some.injEq] at h
    subst h
    simp [observedInterrupts, hm]
  | cons ev evs ih =>
    obtain ⟨s1, h1, h2⟩ := run_cons h
    have hI1 := Step_Connected hI h1
    have hne := hI.main_ne_entry
    cases h1 with
    | signal ha =>
      have e2 := ih hI1 (by rw [deliverInterrupt_main hne]; exact hm)
        (by simpa [firstWrite] using hw) h2
      simp_all [observedInterrupts, List.countP_cons]
    | readErr e d ha hr =>
      have e2 := ih hI1 (by simpa using hm) (by simpa [firstWrite] using hw) h2
      simp_all [observedInterrupts, List.countP_cons]
    | readMsg p d ha hr hp =>
      have e2 := ih hI1 (by simpa using hm) (by simpa [firstWrite] using hw) h2
      simp_all [observedInterrupts, List.countP_cons]
    | readPanic p d ha hr hp =>
      have e2 := ih hI1 (by simpa using hm) (by simpa [firstWrite] using hw) h2
      simp_all [observedInterrupts, List.countP_cons]
    | _ => simp_all [firstWrite]

theorem observedInterrupts_tail {ev : Event} {evs : List Event}
    (h : observedInterrupts (ev :: evs) = 0) : observedInterrupts evs = 0 := by
  cases ev <;> simp_all [observedInterrupts, List.countP_cons]

theorem run_unobserved {lib : Lib} {c : Client} {s s' : State} {evs : List Event}
    (hI : Connected c s) (hm : s.main = .waitLoop ∨ s.main = .returned none)
    (ho : observedInterrupts evs = 0) (h : run lib c s evs = some s') :
    (s'.main = .waitLoop ∨ s'.main = .returned none) ∧
      closeFrames s'.trace = closeFrames s.trace := by
  induction evs generalizing s with
  | nil =>
    simp only [run, Option.some.injEq] at h
    subst h
    exact ⟨hm, rfl⟩
  | cons ev evs ih =>
    obtain ⟨s1, h1, h2⟩ := run_cons h
    have hI1 := Step_Connected hI h1
    have ho1 := observedInterrupts_tail ho
    have hne := hI.main_ne_entry
    cases h1 with
    | signal ha =>
      obtain ⟨i1, i2⟩ := ih hI1 (by rw [deliverInterrupt_main hne]; exact hm) ho1 h2
      exact ⟨i1, by simpa using i2⟩
    | readErr e d ha hr =>
      obtain ⟨i1, i2⟩ := ih hI1 (by simpa using hm) ho1 h2
      exact ⟨i1, by simpa using i2⟩
    | readMsg p d ha hr hp =>
      obtain ⟨i1, i2⟩ := ih hI1 (by simpa using hm) ho1 h2
      exact ⟨i1, by simpa using i2⟩
    | readPanic p d ha hr hp =>
      obtain ⟨i1, i2⟩ := ih hI1 (by simpa using hm) ho1 h2
      exact ⟨i1, by simpa using i2⟩
    | finished ha hw hd =>
      obtain ⟨i1, i2⟩ := ih hI1 (by simp) ho1 h2
      exact ⟨i1, by simpa using i2⟩
    | interrupted ha hw hi => simp [observedInterrupts, List.countP_cons] at ho
    | _ => simp_all

theorem run_unobserved_bind {lib : Lib} {c : Client} {s s' : State} {evs : List Event}
    (hI : Connected c s) (hm : s.main = .bind) (ho : observedInterrupts evs = 0)
    (hw : firstWrite evs = some none) (h : run lib c s evs = some s') :
    (s'.main = .waitLoop ∨ s'.main = .returned none) ∧
      closeFrames s'.trace = closeFrames s.trace := by
  induction evs generalizing s with
  | nil => simp [firstWrite] at hw
  | cons ev evs ih =>
    obtain ⟨s1, h1, h2⟩ := run_cons h
    have hI1 := Step_Connected hI h1
    have ho1 := observedInterrupts_tail ho
    have hne := hI.main_ne_entry
    cases h1 with
    | signal ha =>
      obtain ⟨i1, i2⟩ := ih hI1 (by rw [deliverInterrupt_main hne]; exact hm) ho1
        (by simpa [firstWrite] using hw) h2
      exact ⟨i1, by simpa using i2⟩
    | readErr e d ha hr =>
      obtain ⟨i1, i2⟩ := ih hI1 (by simpa using hm) ho1 (by simpa [firstWrite] using hw) h2
      exact ⟨i1, by simpa using i2⟩
    | readMsg p d ha hr hp =>
      obtain ⟨i1, i2⟩ := ih hI1 (by simpa using hm) ho1 (by simpa [firstWrite] using hw) h2
      exact ⟨i1, by simpa using i2⟩
    | readPanic p d ha hr hp =>
      obtain ⟨i1, i2⟩ := ih hI1 (by simpa using hm) ho1 (by simpa [firstWrite] using hw) h2
      exact ⟨i1, by simpa using i2⟩
    | bindOk ha hbd =>
      obtain ⟨i1, i2⟩ := run_unobserved hI1 (by simp) ho1 h2
      exact ⟨i1, by simpa using i2⟩
    | bindErr e ha hbd => simp [firstWrite] at hw
    | _ => simp_all

theorem run_unsignalled {lib : Lib} {c : Client} {s s' : State} {evs : List Event}
    (hb : s.interrupt = 0) (hs : signals evs = 0) (h : run lib c s evs = some s') :
    s'.interrupt = 0 := by
  induction evs generalizing s with
  | nil =>
    simp only [run, Option.some.injEq] at h
    subst h
    exact hb
  | cons ev evs ih =>
    obtain ⟨s1, h1, h2⟩ := run_cons h
    have hs1 : signals evs = 0 := by
      cases ev <;> simp_all [signals, List.countP_cons]
    cases h1 with
    | signal ha => simp [signals, List.countP_cons] at hs
    | interrupted ha hw hi => omega
    | _ => exact ih (by simpa using hb) hs1 h2

theorem step_closeWrite {lib : Lib} {c : Client} {s : State} (hm : s.main = .closeWrite)
    (ha : alive s = true) (r : Option Error) :
    step lib c s (.write r) =
      some { s with
        main := if (closeConnection r).2 then .closeWait else .waitLoop,
        trace := s.trace ++ (closeConnection r).1 } := by
  rcases s with ⟨m, rd, dn, i, tr⟩
  simp only at hm
  subst hm
  simp [step, ha, ConnectAndBind]

theorem step_closeWait_timeout {lib : Lib} {c : Client} {s : State}
    (hm : s.main = .closeWait) (ha : alive s = true) :
    step lib c s .selectTimeout = some { s with main := .waitLoop } := by
  rcases s with ⟨m, rd, dn, i, tr⟩
  simp only at hm
  subst hm
  simp [step, ha, ConnectAndBind]

theorem step_closeWait_done {lib : Lib} {c : Client} {s : State}
    (hm : s.main = .closeWait) (ha : alive s = true) :
    step lib c s .selectDone = if s.done then some { s with main := .waitLoop } else none := by
  rcases s with ⟨m, rd, dn, i, tr⟩
  simp only at hm
  subst hm
  simp [step, ha, ConnectAndBind]

theorem step_waitLoop_done {lib : Lib} {c : Client} {s : State}
    (hm : s.main = .waitLoop) (ha : alive s = true) :
    step lib c s .selectDone =
      if s.done then some { s with main := .returned none, trace := s.trace ++ [.connClose] }
      else none := by
  rcases s with ⟨m, rd, dn, i, tr⟩
  simp only at hm
  subst hm
  simp [step, ha, ConnectAndBind]

theorem step_waitLoop_interrupt {lib : Lib} {c : Client} {s : State}
    (hm : s.main = .waitLoop) (ha : alive s = true) :
    step lib c s .selectInterrupt =
      if 0 < s.interrupt then
        some { s with main := .closeWrite, interrupt := s.interrupt - 1 }
      else none := by
  rcases s with ⟨m, rd, dn, i, tr⟩
  simp only at hm
  subst hm
  simp [step, ha, ConnectAndBind]

theorem alive_of {s : State}
    (hm : s.main = .bind ∨ s.main = .closeWrite ∨ s.main = .closeWait ∨ s.main = .waitLoop)
    (hr : s.reader ≠ .panicked) : alive s = true := by
  rcases s with ⟨m, rd, dn, i, tr⟩
  simp only at hm hr
  cases rd <;> rcases hm with rfl | rfl | rfl | rfl <;> simp_all [alive]

/-! ## The bind message -/

/-- C1: after a successful dial the text frames written are none while the write of
`bindSubscription` is pending and, from then on and for ever, exactly one, whose payload is
the octets of `bind ` followed by those of the subscription id; and the pending write is
always performed when the environment lets `WriteMessage` return. -/
theorem bind_frame_written_exactly_once (lib : Lib) (c : Client) (evs : List Event)
    (s : State) (h : run lib c (enter lib (some c) []) (.dial none :: evs) = some s) :
    textFrames s.trace =
        (if s.main = .bind then []
         else [stringBytes "bind " ++ stringBytes c.subscriptionId]) ∧
      (s.main = .bind → alive s = true → ∀ r, ∃ s',
        step lib c s (.write r) = some s' ∧ s'.main ≠ .bind ∧
          textFrames s'.trace = [stringBytes "bind " ++ stringBytes c.subscriptionId]) := by
  rw [run_dial_ok] at h
  have hI := run_Connected (Connected_dialled lib c) h
  have ht := hI.text
  rw [stringBytes_append] at ht
  refine ⟨ht, ?_⟩
  intro hm ha r
  rcases s with ⟨m, rd, dn, i, tr⟩
  simp only at hm
  subst hm
  simp only [if_true] at ht
  cases r <;>
    simp [step, ha, ConnectAndBind, bindSubscription, ht, stringBytes_append, TextMessage]

theorem bind_frame_written_exactly_once_witness :
    run stubLib demoClient (enter stubLib (some demoClient) []) [.dial none, .interrupt] =
        some (demoRun [.dial none, .interrupt]) ∧
      (demoRun [.dial none, .interrupt]).main = .bind ∧
      alive (demoRun [.dial none, .interrupt]) = true ∧
      textFrames (demoRun [.dial none, .interrupt]).trace =
        (if (demoRun [.dial none, .interrupt]).main = .bind then []
         else [stringBytes "bind " ++ stringBytes demoClient.subscriptionId]) ∧
      ∃ s', step stubLib demoClient (demoRun [.dial none, .interrupt]) (.write none) =
          some s' ∧ s'.main ≠ .bind ∧
        textFrames s'.trace = [stringBytes "bind " ++ stringBytes demoClient.subscriptionId] :=
  ⟨by rfl, by rfl, by rfl,
   (bind_frame_written_exactly_once stubLib demoClient [.interrupt]
      (demoRun [.dial none, .interrupt]) (by rfl)).1,
   (bind_frame_written_exactly_once stubLib demoClient [.interrupt]
      (demoRun [.dial none, .interrupt]) (by rfl)).2 (by rfl) (by rfl) none⟩

/-! ## Dial failure -/

/-- C2: when the dial fails with error `e`, `ConnectAndBind` returns `e` and the execution
is over: its whole trace is the two log records and the dial; no reader was started, no
frame was written, the connection was not closed, `Send` was not called, and no further
step is possible. -/
theorem dial_failure_returns_error_without_effects (lib : Lib) (c : Client) (e : Error)
    (evs : List Event) :
    run lib c (enter lib (some c) []) (.dial (some e) :: evs) =
        (if evs = [] then some (dialFailed lib c e) else none) ∧
      (dialFailed lib c e).main = .returned (some e) ∧
      (dialFailed lib c e).reader = .notStarted ∧
      Effect.go ∉ (dialFailed lib c e).trace ∧
      writes (dialFailed lib c e).trace = [] ∧
      connCloses (dialFailed lib c e).trace = 0 ∧
      sendCalls (dialFailed lib c e).trace = [] ∧
      ∀ ev, step lib c (dialFailed lib c e) ev = none := by
  have hstuck : ∀ ev, step lib c (dialFailed lib c e) ev = none := by
    intro ev
    simp [step, alive, dialFailed]
  refine ⟨?_, rfl, rfl, by simp [dialFailed], by simp [dialFailed], by simp [dialFailed],
    by simp [dialFailed], hstuck⟩
  have h1 : step lib c (enter lib (some c) []) (.dial (some e)) = some (dialFailed lib c e) := by
    simp [step, alive, enter, ConnectAndBind, dialFailed]
  cases evs with
  | nil => simp [run, h1]
  | cons ev evs => simp [run, h1, hstuck ev]

/-! ## The reader loop -/

/-- C3: in a session that has a notifier, after a successful dial the arguments of the
calls of `Send` are, in order, exactly the payloads that `ReadMessage` returned before its
first error; `done` is closed once if a read failed and not at all otherwise; and after a
failed read the reader takes no further step. -/
theorem reader_forwards_each_frame_in_order (lib : Lib) (c : Client) (evs : List Event)
    (s : State) (hc : c.emailClient ≠ none)
    (h : run lib c (enter lib (some c) []) (.dial none :: evs) = some s) :
    sendCalls s.trace = received evs ∧
      doneSignals s.trace = (if readFailed evs then 1 else 0) ∧
      (readFailed evs = true → ∀ r d, step lib c s (.read r d) = none) := by
  rw [run_dial_ok] at h
  obtain ⟨h1, h2, h3⟩ := run_reading (Connected_dialled lib c) hc rfl h
  refine ⟨by simpa [dialled] using h1, by simpa [dialled] using h2, ?_⟩
  intro hf r d
  rw [hf] at h3
  simp only [if_true] at h3
  rcases s with ⟨m, rd, dn, i, tr⟩
  simp only at h3
  subst h3
  simp only [step, reader]
  split <;> rfl

theorem reader_forwards_each_frame_in_order_witness :
    demoClient.emailClient ≠ none ∧
      run stubLib demoClient (enter stubLib (some demoClient) []) (.dial none :: threeFrames) =
        some (demoRun (.dial none :: threeFrames)) ∧
      readFailed threeFrames = true ∧
      sendCalls (demoRun (.dial none :: threeFrames)).trace =
        [[1, 2], stringBytes "{}", []] ∧
      doneSignals (demoRun (.dial none :: threeFrames)).trace = 1 ∧
      ∀ r d, step stubLib demoClient (demoRun (.dial none :: threeFrames)) (.read r d) =
        none :=
  ⟨by simp [demoClient], by rfl, by rfl,
   (reader_forwards_each_frame_in_order stubLib demoClient threeFrames _
      (by simp [demoClient]) (by rfl)).1,
   (reader_forwards_each_frame_in_order stubLib demoClient threeFrames _
      (by simp [demoClient]) (by rfl)).2.1,
   (reader_forwards_each_frame_in_order stubLib demoClient threeFrames _
      (by simp [demoClient]) (by rfl)).2.2 (by rfl)⟩

/-! ## The wait loop and the close handshake -/

/-- C4, counterexample: the bind succeeds, one event is handled, the connection drops (the
read fails, and not because the peer sent a close frame) and no interrupt ever arrives;
`ConnectAndBind` returns nil, and the only frame it has written is the bind message: it did
not run the close handshake. -/
theorem reader_end_sends_no_close_frame :
    run stubLib demoClient (enter stubLib (some demoClient) []) remoteClose =
        some (demoRun remoteClose) ∧
      signals remoteClose = 0 ∧
      (demoRun remoteClose).reader = .ended ∧
      (demoRun remoteClose).main = .returned none ∧
      writes (demoRun remoteClose).trace = [(TextMessage, stringBytes "bind 42")] ∧
      closeFrames (demoRun remoteClose).trace = [] := by
  refine ⟨by rfl, by rfl, by rfl, by rfl, by rfl, by rfl⟩

/-- C4, amended: after a successful bind the close frames the program has written, plus one
for a close write still pending, are exactly as many as the interrupts the wait loop has
observed: the end of the reader adds none.  So when the wait loop has observed no
interrupt, whether or not one was delivered, the program has written no close frame and
the caller is in the wait loop or has returned nil.  Once the reader has ended, the
`<-done` case of the wait loop is enabled and returns nil, doing nothing but release the
connection; when no interrupt was delivered it is the only case the loop can take.  The
close handshake is run by the other trigger only: when the wait loop observes an interrupt
it enters `closeConnection`, whose write adds one close frame. -/
theorem reader_end_returns_nil_without_close (lib : Lib) (c : Client) (evs : List Event)
    (s : State) (h : run lib c (enter lib (some c) []) (.dial none :: evs) = some s)
    (hw : firstWrite evs = some none) :
    (closeFrames s.trace).length + (if s.main = .closeWrite then 1 else 0) =
        observedInterrupts evs ∧
      (observedInterrupts evs = 0 →
        closeFrames s.trace = [] ∧ (s.main = .waitLoop ∨ s.main = .returned none)) ∧
      (s.main = .waitLoop → s.reader = .ended →
        step lib c s .selectDone =
          some { s with main := .returned none, trace := s.trace ++ [.connClose] }) ∧
      (signals evs = 0 → s.main = .waitLoop → step lib c s .selectInterrupt = none) ∧
      (∀ t : State, t.main = .waitLoop → alive t = true → 0 < t.interrupt →
        ∃ t', step lib c t .selectInterrupt = some t' ∧ t'.main = .closeWrite ∧
          ∀ r, ∃ t'', step lib c t' (.write r) = some t'' ∧
            closeFrames t''.trace =
              closeFrames t.trace ++ [FormatCloseMessage CloseNormalClosure ""]) := by
  rw [run_dial_ok] at h
  have hI := run_Connected (Connected_dialled lib c) h
  have hcount := run_closes_bind (Connected_dialled lib c) rfl h
  have hbf : bindFailed evs = false := by simp [bindFailed, hw]
  refine ⟨by simpa [dialled, hbf] using hcount, ?_, ?_, ?_, ?_⟩
  · intro ho
    obtain ⟨h1, h3⟩ := run_unobserved_bind (Connected_dialled lib c) rfl ho hw h
    exact ⟨by simpa [dialled] using h3, h1⟩
  · intro hm hr
    have ha : alive s = true := alive_of (by simp [hm]) (by simp [hr])
    have hd : s.done = true := hI.done.mpr (Or.inl hr)
    rw [step_waitLoop_done hm ha]
    simp [hd]
  · intro hs hm
    have h2 : s.interrupt = 0 := @run_unsignalled lib c _ _ _ rfl hs h
    rcases s with ⟨m, rd, dn, i, tr⟩
    simp only at hm h2
    subst hm h2
    simp only [step, ConnectAndBind]
    split <;> simp
  · intro t hm ha hi
    refine ⟨{ t with main := .closeWrite, interrupt := t.interrupt - 1 }, ?_, rfl, ?_⟩
    · rw [step_waitLoop_interrupt hm ha]
      simp [hi]
    · intro r
      have ha' : alive { t with main := .closeWrite, interrupt := t.interrupt - 1 } = true := by
        have := alive_reader ha
        exact alive_of (by simp) this
      rw [step_closeWrite rfl ha']
      exact ⟨_, rfl, by simp⟩

theorem reader_end_returns_nil_without_close_witness :
    run stubLib demoClient (enter stubLib (some demoClient) [])
        (.dial none :: lateInterruptUnobserved.take 3) =
        some (demoRun (.dial none :: lateInterruptUnobserved.take 3)) ∧
      firstWrite (lateInterruptUnobserved.take 3) = some none ∧
      signals (lateInterruptUnobserved.take 3) = 1 ∧
      observedInterrupts (lateInterruptUnobserved.take 3) = 0 ∧
      (closeFrames (demoRun (.dial none :: lateInterruptUnobserved.take 3)).trace = [] ∧
        ((demoRun (.dial none :: lateInterruptUnobserved.take 3)).main = .waitLoop ∨
          (demoRun (.dial none :: lateInterruptUnobserved.take 3)).main = .returned none)) ∧
      step stubLib demoClient (demoRun (.dial none :: lateInterruptUnobserved.take 3))
          .selectDone =
        some { demoRun (.dial none :: lateInterruptUnobserved.take 3) with
          main := .returned none,
          trace := (demoRun (.dial none :: lateInterruptUnobserved.take 3)).trace ++
            [.connClose] } ∧
      (closeFrames (demoRun (.dial none :: lateInterruptObserved)).trace).length +
          (if (demoRun (.dial none :: lateInterruptObserved)).main = .closeWrite then 1
           else 0) =
        observedInterrupts lateInterruptObserved ∧
      observedInterrupts lateInterruptObserved = 1 ∧
      (demoRun (.dial none :: lateInterruptObserved)).main = .returned none ∧
      step stubLib demoClient (demoRun (.dial none :: lateInterruptUnobserved.take 2))
          .selectInterrupt = none ∧
      ∃ t', step stubLib demoClient (demoRun (.dial none :: lateInterruptUnobserved.take 3))
          .selectInterrupt = some t' ∧ t'.main = .closeWrite ∧
        ∀ r, ∃ t'', step stubLib demoClient t' (.write r) = some t'' ∧
          closeFrames t''.trace =
            closeFrames (demoRun (.dial none :: lateInterruptUnobserved.take 3)).trace ++
              [FormatCloseMessage CloseNormalClosure ""] :=
  ⟨by rfl, by rfl, by rfl, by rfl,
   (reader_end_returns_nil_without_close stubLib demoClient
      (lateInterruptUnobserved.take 3) _ (by rfl) (by rfl)).2.1 (by rfl),
   (reader_end_returns_nil_without_close stubLib demoClient
      (lateInterruptUnobserved.take 3) _ (by rfl) (by rfl)).2.2.1 (by rfl) (by rfl),
   (reader_end_returns_nil_without_close stubLib demoClient
      lateInterruptObserved (demoRun (.dial none :: lateInterruptObserved))
      (by rfl) (by rfl)).1,
   by rfl, by rfl,
   (reader_end_returns_nil_without_close stubLib demoClient
      (lateInterruptUnobserved.take 2) (demoRun (.dial none :: lateInterruptUnobserved.take 2))
      (by rfl) (by rfl)).2.2.2.1 (by rfl) (by rfl),
   (reader_end_returns_nil_without_close stubLib demoClient
      (lateInterruptUnobserved.take 3) _ (by rfl) (by rfl)).2.2.2.2
      (demoRun (.dial none :: lateInterruptUnobserved.take 3)) (by rfl) (by rfl)
      (by decide)⟩

/-- C5: after a successful dial `ConnectAndBind` has returned only if the reader has ended
(so `done` is closed), and then it returned nil; the close frames written, plus one for a
close write still pending, are as many as the interrupts the wait loop has observed, plus
one if the bind failed; a pending close write always completes and leads back to the wait
loop, at once or through the bounded wait; and while `done` is open the wait loop cannot
take its return branch. -/
theorem return_only_after_reader_ended (lib : Lib) (c : Client) (evs : List Event)
    (s : State) (h : run lib c (enter lib (some c) []) (.dial none :: evs) = some s) :
    (∀ r, s.main = .returned r → r = none ∧ s.reader = .ended ∧ s.done = true) ∧
      (closeFrames s.trace).length + (if s.main = .closeWrite then 1 else 0) =
        observedInterrupts evs + (if bindFailed evs then 1 else 0) ∧
      (s.main = .closeWrite → alive s = true → ∀ r, ∃ s',
        step lib c s (.write r) = some s' ∧
          (s'.main = .waitLoop ∨ s'.main = .closeWait) ∧
          closeFrames s'.trace =
            closeFrames s.trace ++ [FormatCloseMessage CloseNormalClosure ""]) ∧
      (s.main = .closeWait → alive s = true →
        step lib c s .selectTimeout = some { s with main := .waitLoop }) ∧
      (s.main = .waitLoop → s.done = false → step lib c s .selectDone = none) := by
  rw [run_dial_ok] at h
  have hI := run_Connected (Connected_dialled lib c) h
  have hcount := run_closes_bind (Connected_dialled lib c) rfl h
  refine ⟨?_, by simpa [dialled] using hcount, ?_, ?_, ?_⟩
  · intro r hr
    have hpc := hI.pc
    have hnone : r = none := by simp_all
    subst hnone
    have hre := hI.ret hr
    exact ⟨rfl, hre, hI.done.mpr (Or.inl hre)⟩
  · intro hm ha r
    rw [step_closeWrite hm ha]
    refine ⟨_, rfl, ?_, by simp⟩
    cases r <;> simp [closeConnection]
  · intro hm ha
    exact step_closeWait_timeout hm ha
  · intro hm hd
    rcases s with ⟨m, rd, dn, i, tr⟩
    simp only at hm hd
    subst hm hd
    simp only [step, ConnectAndBind]
    split <;> simp

theorem return_only_after_reader_ended_witness :
    run stubLib demoClient (enter stubLib (some demoClient) []) twoInterrupts =
        some (demoRun twoInterrupts) ∧
      (demoRun twoInterrupts).main = .returned none ∧
      (demoRun twoInterrupts).reader = .ended ∧
      (closeFrames (demoRun twoInterrupts).trace).length +
          (if (demoRun twoInterrupts).main = .closeWrite then 1 else 0) =
        observedInterrupts twoInterrupts.tail +
          (if bindFailed twoInterrupts.tail then 1 else 0) ∧
      (closeFrames (demoRun twoInterrupts).trace).length = 2 ∧
      (∃ s', step stubLib demoClient (demoRun (twoInterrupts.take 4)) (.write none) =
          some s' ∧ (s'.main = .waitLoop ∨ s'.main = .closeWait) ∧
        closeFrames s'.trace =
          closeFrames (demoRun (twoInterrupts.take 4)).trace ++
            [FormatCloseMessage CloseNormalClosure ""]) ∧
      step stubLib demoClient (demoRun (twoInterrupts.take 5)) .selectTimeout =
        some { demoRun (twoInterrupts.take 5) with main := .waitLoop } ∧
      step stubLib demoClient (demoRun (twoInterrupts.take 3)) .selectDone = none :=
  ⟨by rfl, by rfl,
   ((return_only_after_reader_ended stubLib demoClient twoInterrupts.tail
      (demoRun twoInterrupts) (by rfl)).1 none (by rfl)).2.1,
   (return_only_after_reader_ended stubLib demoClient twoInterrupts.tail
      (demoRun twoInterrupts) (by rfl)).2.1,
   by rfl,
   (return_only_after_reader_ended stubLib demoClient (twoInterrupts.take 4).tail
      (demoRun (twoInterrupts.take 4)) (by rfl)).2.2.1 (by rfl) (by rfl) none,
   (return_only_after_reader_ended stubLib demoClient (twoInterrupts.take 5).tail
      (demoRun (twoInterrupts.take 5)) (by rfl)).2.2.2.1 (by rfl) (by rfl),
   (return_only_after_reader_ended stubLib demoClient (twoInterrupts.take 3).tail
      (demoRun (twoInterrupts.take 3)) (by rfl)).2.2.2.2 (by rfl) (by rfl)⟩

/-- C6: when the write of the bind message fails, the caller is at once inside
`closeConnection`, with no close frame written yet; from then on the close frames written,
plus one for a close write still pending, are one more than the interrupts the wait loop
has observed; if `ConnectAndBind` has returned, it returned nil, not the bind error; and
the write of `closeConnection`, whatever it returns, adds one close frame and leads to the
wait loop, at once or through the bounded wait. -/
theorem bind_failure_runs_close_handshake_once (lib : Lib) (c : Client)
    (pre post : List Event) (e : Error) (s : State) (hpre : firstWrite pre = none)
    (h : run lib c (enter lib (some c) []) (.dial none :: (pre ++ .write (some e) :: post)) =
      some s) :
    (run lib c (enter lib (some c) []) (.dial none :: (pre ++ [.write (some e)]))).map
        (fun s1 => (s1.main, closeFrames s1.trace)) = some (.closeWrite, []) ∧
      (closeFrames s.trace).length + (if s.main = .closeWrite then 1 else 0) =
        1 + observedInterrupts post ∧
      (∀ r, s.main = .returned r → r = none) ∧
      (∀ t : State, t.main = .closeWrite → alive t = true → ∀ r, ∃ t',
        step lib c t (.write r) = some t' ∧
          closeFrames t'.trace =
            closeFrames t.trace ++ [FormatCloseMessage CloseNormalClosure ""] ∧
          (t'.main = .waitLoop ∨ t'.main = .closeWait)) := by
  rw [run_dial_ok] at h
  have hI := run_Connected (Connected_dialled lib c) h
  obtain ⟨s0, h0, h1⟩ := run_append h
  have hI0 := run_Connected (Connected_dialled lib c) h0
  obtain ⟨hm0, hc0, _⟩ := run_bind_pending (Connected_dialled lib c) rfl hpre h0
  rw [run_cons_iff] at h1
  obtain ⟨s1, hs1, h2⟩ := h1
  have hS := step_Step hs1
  have hI1 := Step_Connected hI0 hS
  have hm1 : s1.main = .closeWrite ∧ closeFrames s1.trace = [] := by
    have hd : closeFrames (dialled lib c).trace = [] := by simp [dialled]
    cases hS <;> simp_all
  refine ⟨?_, ?_, ?_, ?_⟩
  · have hrun : run lib c (dialled lib c) (pre ++ [.write (some e)]) = some s1 :=
      run_append_of h0 (run_cons_iff.mpr ⟨s1, hs1, rfl⟩)
    rw [run_dial_ok, hrun]
    simp [hm1.1, hm1.2]
  · have hcount := run_closes_past hI1 (by simp [hm1.1]) h2
    simp only [hm1.1, hm1.2, if_true, List.length_nil] at hcount
    omega
  · intro r hr
    have hpc := hI.pc
    simp_all
  · intro t hm ha r
    rw [step_closeWrite hm ha]
    refine ⟨_, rfl, by simp, ?_⟩
    cases r <;> simp [closeConnection]

theorem bind_failure_runs_close_handshake_once_witness :
    firstWrite [.read (.msg (stringBytes "{}")) none] = none ∧
      run stubLib demoClient (enter stubLib (some demoClient) []) bindFails =
        some (demoRun bindFails) ∧
      (closeFrames (demoRun bindFails).trace).length +
          (if (demoRun bindFails).main = .closeWrite then 1 else 0) =
        1 + observedInterrupts (bindFails.drop 3) ∧
      (demoRun bindFails).main = .returned none ∧
      closeFrames (demoRun bindFails).trace = [[3, 232]] ∧
      (none : Option Error) = none ∧
      ∃ t', step stubLib demoClient (demoRun (bindFails.take 3)) (.write none) = some t' ∧
        closeFrames t'.trace =
          closeFrames (demoRun (bindFails.take 3)).trace ++
            [FormatCloseMessage CloseNormalClosure ""] ∧
        (t'.main = .waitLoop ∨ t'.main = .closeWait) :=
  ⟨by rfl, by rfl,
   (bind_failure_runs_close_handshake_once stubLib demoClient
      [.read (.msg (stringBytes "{}")) none] (bindFails.drop 3) "broken pipe"
      (demoRun bindFails) (by rfl) (by rfl)).2.1,
   by rfl, by rfl,
   (bind_failure_runs_close_handshake_once stubLib demoClient
      [.read (.msg (stringBytes "{}")) none] (bindFails.drop 3) "broken pipe"
      (demoRun bindFails) (by rfl) (by rfl)).2.2.1 none (by rfl),
   (bind_failure_runs_close_handshake_once stubLib demoClient
      [.read (.msg (stringBytes "{}")) none] (bindFails.drop 3) "broken pipe"
      (demoRun bindFails) (by rfl) (by rfl)).2.2.2
      (demoRun (bindFails.take 3)) (by rfl) (by rfl) none⟩

/-- C7: `closeConnection` writes one frame and nothing else: a close-control frame whose
payload is the two octets of status 1000 in network order, with no reason octets.  The
function goes on to its `select` exactly when the write succeeded: then the caller waits
until `done` is closed or the timer fires, and writes nothing meanwhile; when the write
failed the caller is back in the wait loop at once. -/
theorem closeConnection_single_close_frame (lib : Lib) (c : Client) (s : State)
    (r : Option Error) (hm : s.main = .closeWrite) (ha : alive s = true) :
    writes (closeConnection r).1 =
        [(CloseMessage, FormatCloseMessage CloseNormalClosure "")] ∧
      FormatCloseMessage CloseNormalClosure "" = [1000 / 256, 1000 % 256] ∧
      ((closeConnection r).2 = true ↔ r = none) ∧
      ∃ s', step lib c s (.write r) = some s' ∧
        s'.trace = s.trace ++ (closeConnection r).1 ∧
        (r = none →
          s'.main = .closeWait ∧
          step lib c s' .selectTimeout = some { s' with main := .waitLoop } ∧
          step lib c s' .selectDone =
            (if s'.done then some { s' with main := .waitLoop } else none) ∧
          ∀ r', step lib c s' (.write r') = none) ∧
        (r ≠ none → s'.main = .waitLoop) := by
  refine ⟨writes_closeConnection r, by decide, by cases r <;> simp [closeConnection], ?_⟩
  rw [step_closeWrite hm ha]
  refine ⟨_, rfl, rfl, ?_, ?_⟩
  · intro hr
    subst hr
    rcases s with ⟨m, rd, dn, i, tr⟩
    have ha' : ∀ tr', alive ⟨.closeWait, rd, dn, i, tr'⟩ = true := by
      intro tr'
      have hrd : rd ≠ .panicked := alive_reader ha
      exact alive_of (by simp) hrd
    simp [step, ha', ConnectAndBind, closeConnection]
  · intro hr
    cases r with
    | none => exact absurd rfl hr
    | some e => simp [closeConnection]

theorem closeConnection_single_close_frame_witness :
    (demoRun [.dial none, .write (some "broken pipe")]).main = .closeWrite ∧
      alive (demoRun [.dial none, .write (some "broken pipe")]) = true ∧
      writes (closeConnection none).1 = [(8, [3, 232])] ∧
      ((closeConnection none).2 = true ↔ (none : Option Error) = none) ∧
      ∃ s', step stubLib demoClient (demoRun [.dial none, .write (some "broken pipe")])
          (.write none) = some s' ∧
        s'.trace = (demoRun [.dial none, .write (some "broken pipe")]).trace ++
          (closeConnection none).1 ∧
        ((none : Option Error) = none →
          s'.main = .closeWait ∧
          step stubLib demoClient s' .selectTimeout = some { s' with main := .waitLoop } ∧
          step stubLib demoClient s' .selectDone =
            (if s'.done then some { s' with main := .waitLoop } else none) ∧
          ∀ r', step stubLib demoClient s' (.write r') = none) ∧
        ((none : Option Error) ≠ none → s'.main = .waitLoop) :=
  ⟨by rfl, by rfl,
   (closeConnection_single_close_frame stubLib demoClient
      (demoRun [.dial none, .write (some "broken pipe")]) none (by rfl) (by rfl)).1,
   (closeConnection_single_close_frame stubLib demoClient
      (demoRun [.dial none, .write (some "broken pipe")]) none (by rfl) (by rfl)).2.2.1,
   (closeConnection_single_close_frame stubLib demoClient
      (demoRun [.dial none, .write (some "broken pipe")]) none (by rfl) (by rfl)).2.2.2⟩


/-! ## Startup -/

/-- C8, the code at the failing input: with a loadable certificate and an SMTP server name
that `mail.NewClient` rejects, `main` builds a session whose notifier is nil and enters
`ConnectAndBind` on it; the dial is made, the bind message is written, and the first event
frame ends the process in a panic inside `Send`.  With a certificate that cannot be loaded,
`main` enters `ConnectAndBind` on a nil session, which panics before dialling. -/
theorem absent_notifier_session_is_run :
    main stubLib (.ok noSmtpConfig) =
        (some noNotifierClient,
         { main := .entry, reader := .notStarted, done := false, interrupt := 0,
           trace := [.log .error "Failed to create e-mail client"
                       [("error", .str "hostname for client cannot be empty")],
                     .log .info "Connecting to websocket"
                       [("url", .str "wss://fhir.example.org/fhir/ws")],
                     .dial "wss://fhir.example.org/fhir/ws"] }) ∧
      (run stubLib noNotifierClient (main stubLib (.ok noSmtpConfig)).2
          [.dial none, .write none]).map (fun s => (dials s.trace, writes s.trace)) =
        some (["wss://fhir.example.org/fhir/ws"], [(TextMessage, stringBytes "bind 42")]) ∧
      (run stubLib noNotifierClient (main stubLib (.ok noSmtpConfig)).2
          [.dial none, .write none, .read (.msg (stringBytes "{}")) none]).map
            (fun s => (s.reader, alive s, deliveries s.trace)) =
        some (.panicked, false, []) ∧
      main stubLib (.ok noCertConfig) =
        (none,
         { main := .panicked, reader := .notStarted, done := false, interrupt := 0,
           trace := [.log .error "Failed to load certificates"
                       [("error", .str "open : no such file or directory")]] }) := by
  refine ⟨by rfl, by rfl, by rfl, by rfl⟩

/-! ## The notifier -/

/-- C9: on a notifier that was constructed, `Send` ends without a panic whatever the
payload and whatever the address parsers, `json.Indent`, the highlighter and the delivery
return; so a reader that receives a frame handles it and is again waiting for the next
frame, which it can receive. -/
theorem Send_never_propagates_failure (lib : Lib) (c : Client) (ec : EmailClient)
    (s : State) (msg : Bytes) (d : Option Error) (hc : c.emailClient = some ec)
    (hr : s.reader = .reading) (ha : alive s = true) :
    (Send lib (some ec) msg d).panicked = false ∧
      ∃ s', step lib c s (.read (.msg msg) d) = some s' ∧
        s'.reader = .reading ∧ s'.main = s.main ∧ alive s' = true ∧
        sendCalls s'.trace = sendCalls s.trace ++ [msg] ∧
        ∀ r' d', (step lib c s' (.read r' d')).isSome = true := by
  have hp : (Send lib (some ec) msg d).panicked = false := by
    rw [Bool.eq_false_iff]
    intro h
    simpa using (Send_panicked lib (some ec) msg d).mp h
  have hh : ∀ m' d', (handleMessage lib c m' d').panicked = false := by
    intro m' d'
    rw [Bool.eq_false_iff]
    intro h
    simp only [handleMessage, hc] at h
    simpa using (Send_panicked lib (some ec) m' d').mp h
  refine ⟨hp, ?_⟩
  rcases s with ⟨m, rd, dn, i, tr⟩
  simp only at hr
  subst hr
  have ha' : ∀ tr', alive ⟨m, .reading, dn, i, tr'⟩ = true := by
    intro tr'
    simpa [alive] using ha
  refine ⟨⟨m, .reading, dn, i, tr ++ (handleMessage lib c msg d).effects⟩, ?_, rfl, rfl,
    ha' _, by simp, ?_⟩
  · simp [step, ha, reader, hh]
  · intro r' d'
    cases r' <;> simp [step, ha', reader, hh]

theorem Send_never_propagates_failure_witness :
    demoClient.emailClient = some demoEmailClient ∧
      (demoRun [.dial none]).reader = .reading ∧
      alive (demoRun [.dial none]) = true ∧
      stubLib.Indent (stringBytes "not json") =
        .error "invalid character 'o' in literal null (expecting 'u')" ∧
      (Send stubLib (some demoEmailClient) (stringBytes "not json")
        (some "smtp down")).panicked = false ∧
      ∃ s', step stubLib demoClient (demoRun [.dial none])
          (.read (.msg (stringBytes "not json")) (some "smtp down")) = some s' ∧
        s'.reader = .reading ∧ s'.main = (demoRun [.dial none]).main ∧ alive s' = true ∧
        sendCalls s'.trace =
          sendCalls (demoRun [.dial none]).trace ++ [stringBytes "not json"] ∧
        ∀ r' d', (step stubLib demoClient s' (.read r' d')).isSome = true :=
  ⟨by rfl, by rfl, by rfl, by rfl,
   (Send_never_propagates_failure stubLib demoClient demoEmailClient (demoRun [.dial none])
      (stringBytes "not json") (some "smtp down") (by rfl) (by rfl) (by rfl)).1,
   (Send_never_propagates_failure stubLib demoClient demoEmailClient (demoRun [.dial none])
      (stringBytes "not json") (some "smtp down") (by rfl) (by rfl) (by rfl)).2⟩

/-- C10, counterexample: for a payload that `json.Indent` rejects, `Send` hands no message
to `DialAndSend`; it only logs the parse failure. -/
theorem Send_skips_delivery_of_unparsable_payload :
    stubLib.Indent (stringBytes "not json") =
        .error "invalid character 'o' in literal null (expecting 'u')" ∧
      deliveries (Send stubLib (some demoEmailClient) (stringBytes "not json") none).effects =
        [] ∧
      (Send stubLib (some demoEmailClient) (stringBytes "not json") none).effects =
        [.log .error "Failed to parse JSON"
           [("error", .str "invalid character 'o' in literal null (expecting 'u')")]] := by
  refine ⟨by rfl, by rfl, by rfl⟩

/-- C10, amended: `Send` hands a message to `DialAndSend` exactly once when `json.Indent`
accepts the payload and the highlighter accepts its output, and not at all otherwise; the
message handed over has the fixed subject line and, as its body, the highlighted rendering
of the indented payload with content type `text/html`. -/
theorem Send_delivers_once_when_rendered (lib : Lib) (ec : EmailClient) (msg : Bytes)
    (d : Option Error) :
    deliveries (Send lib (some ec) msg d).effects =
        (match lib.Indent msg with
         | .ok msgf =>
           match lib.Highlight msgf with
           | .ok out =>
             [(ec.client, { headerMsg lib ec with body := some (TypeTextHTML, out) })]
           | .error _ => []
         | .error _ => []) ∧
      (headerMsg lib ec).subject = subjectLine ∧
      subjectLine = "💣 DSF Task failed" := by
  refine ⟨?_, rfl, rfl⟩
  simp only [Send]
  cases hi : lib.Indent msg with
  | error e => simp
  | ok msgf =>
    cases hh : lib.Highlight msgf with
    | error e => simp [hh]
    | ok out => cases d <;> simp [hh]

end FhirAlarm
